import Mathlib

/-!
Verification of the PyZDDE array-trace DDE client
(`src/pyzdde/arraytrace/arrayTraceClient.c` and its ancestor `zclient.c`).

The development shallowly embeds the C code:
* `DDERAYDATA` mirrors the wire record struct (doubles modelled as `Rat`,
  C `int` fields as `Int`);
* `decodeNumRays` is the ray-count derivation at the top of
  `PostArrayTraceMessage`;
* `GetString` is the command-line tokenizer (the two NUL-terminated C
  buffers become `List Char`, reading past the terminator yields further
  NUL bytes, which the list end models);
* `waitStep`/`waitRun` embed the `WaitForData` polling loop as a step
  function iterated under explicit fuel, with a proved sufficient fuel
  bound (`waitFuel`) packaging it into the total `waitForDataTotal`;
* `postArrayTraceMessage`, `arrayTraceRet`, `arrayTraceRD` and the
  `numpy*` wrappers embed the call façade, with the environment
  (`TraceEnv`) describing the peer's observable behaviour: whether any
  window answers the connect broadcast, whether posting the poke
  succeeds, at which poll iteration a reply is dispatched, and the
  contents of the reply buffer.
-/

/-- One DDE ray record (`DDERAYDATA` in `arrayTraceClient.h`): 14 doubles
followed by 4 C ints.  Record 0 of a buffer is the control header. -/
structure DDERAYDATA where
  x : Rat
  y : Rat
  z : Rat
  l : Rat
  m : Rat
  n : Rat
  opd : Rat
  intensity : Rat
  Exr : Rat
  Exi : Rat
  Eyr : Rat
  Eyi : Rat
  Ezr : Rat
  Ezi : Rat
  wave : Int
  error : Int
  vigcode : Int
  want_opd : Int
deriving DecidableEq, Repr

/-- The all-zero record, as produced by `calloc` in the numpy wrappers. -/
def zeroRD : DDERAYDATA :=
  { x := 0, y := 0, z := 0, l := 0, m := 0, n := 0, opd := 0, intensity := 0
    Exr := 0, Exi := 0, Eyr := 0, Eyi := 0, Ezr := 0, Ezi := 0
    wave := 0, error := 0, vigcode := 0, want_opd := 0 }

instance : Inhabited DDERAYDATA := ⟨zeroRD⟩

/-- C cast `(int)` of a `double`: truncation toward zero. -/
def truncInt (q : Rat) : Int :=
  if q < 0 then -(Rat.floor (-q)) else Rat.floor q

/-- Ray-count derivation at the top of `PostArrayTraceMessage`
(`arrayTraceClient.c:557-566`): `if (RD[0].opd > 4) numrays = (int)RD[0].opd - 5;
else numrays = RD[0].error;`. -/
def decodeNumRays (h : DDERAYDATA) : Int :=
  if 4 < h.opd then truncInt h.opd - 5 else h.error

/-- `sizeof(DDERAYDATA)`: 14 8-byte doubles plus 4 4-byte ints, no padding. -/
def sizeofDDERAYDATA : Nat := 14 * 8 + 4 * 4

/-- `numbytes = (1 + numrays)*sizeof(DDERAYDATA)` in `PostArrayTraceMessage`
(`arrayTraceClient.c:572`): size of the record payload serialized into the
cross-process poke buffer. -/
def pokeNumBytes (h : DDERAYDATA) : Int :=
  (1 + decodeNumRays h) * (sizeofDDERAYDATA : Int)

/-- `(ngNumRays + 1)*sizeof(DDERAYDATA)` in the `WM_DDE_DATA` handler
(`arrayTraceClient.c:387`): bytes memcpy'd from the peer's reply buffer back
into the caller's record buffer. -/
def ddeDataCopyBytes (ngNumRays : Int) : Int :=
  (ngNumRays + 1) * (sizeofDDERAYDATA : Int)

section Tokenizer

/-- The NUL character terminating C strings. -/
def cNull : Char := Char.ofNat 0

/-- Separator test in `GetString` (`arrayTraceClient.c:528`): space,
line-break characters, NUL, or comma. -/
def isSep (c : Char) : Bool :=
  c = ' ' || c = '\n' || c = '\r' || c = cNull || c = ','

/-- The loop of `GetString` (`arrayTraceClient.c:509-541`), embedded as a
single left-to-right scan.  `inQuote = false` is the head of the outer
`while (szBuffer[i] && (k <= n))` loop with the separator test;
`inQuote = true` is the inner `while (szBuffer[i] != '"' && szBuffer[i])`
copy loop entered on a double quote.  `acc` is `szTest[0..j)`, `k` the
number of completed tokens.  Reaching the list end corresponds to reading
the NUL terminator. -/
def getStringLoop (nn : Nat) : List Char → Bool → Nat → List Char → List Char
  | [], _, k, acc => if k = nn then acc else []
  | c :: cs, false, k, acc =>
    if nn < k then (if k = nn then acc else [])
    else if c = '"' then getStringLoop nn cs true k (acc ++ [c])
    else if isSep c then (if k = nn then acc else getStringLoop nn cs false (k + 1) [])
    else getStringLoop nn cs false k (acc ++ [c])
  | c :: cs, true, k, acc =>
    if c = '"' then getStringLoop nn cs false k (acc ++ [c])
    else getStringLoop nn cs true k (acc ++ [c])

/-- `GetString(szBuffer, n, szSubString)` (`arrayTraceClient.c:500-547`):
the `n`-th (0-based) token of the command line. -/
def GetString (s : List Char) (nn : Nat) : List Char :=
  getStringLoop nn s false 0 []

end Tokenizer

lemma ratFloor_intCast (z : Int) : Rat.floor (z : Rat) = z := by
  rw [Rat.floor_def', Rat.num_intCast, Rat.den_intCast]
  simp

lemma truncInt_intCast (z : Int) : truncInt (z : Rat) = z := by
  unfold truncInt
  split
  · rename_i hneg
    have h1 : -(z : Rat) = ((-z : Int) : Rat) := by push_cast; ring
    rw [h1, ratFloor_intCast]; ring
  · exact ratFloor_intCast z

/-- Claim C1: the ray-count derivation at the top of `PostArrayTraceMessage`
implements the dual-encoding rule: if the header's `opd` field exceeds 4 the
derived ray count is `(int)opd - 5`, otherwise it is the header's `error`
field; consequently for every `k ≥ 0` a header with `opd = k + 5` and a
header with `opd ≤ 4` and `error = k` both decode back to `k`. -/
theorem claim_C1_decodeNumRays :
    ∀ (h : DDERAYDATA) (k : Int),
      (4 < h.opd → decodeNumRays h = truncInt h.opd - 5)
      ∧ (h.opd ≤ 4 → decodeNumRays h = h.error)
      ∧ (0 ≤ k → h.opd = (k : Rat) + 5 → decodeNumRays h = k)
      ∧ (h.opd ≤ 4 → h.error = k → decodeNumRays h = k) := by
  intro h k
  refine ⟨fun h4 => ?_, fun h4 => ?_, fun hk hopd => ?_, fun h4 he => ?_⟩
  · simp [decodeNumRays, h4]
  · simp [decodeNumRays, not_lt.mpr h4]
  · have h4 : (4 : Rat) < h.opd := by
      rw [hopd]
      have : (0 : Rat) ≤ (k : Rat) := by exact_mod_cast hk
      linarith
    have htr : truncInt h.opd = k + 5 := by
      have hcast : h.opd = ((k + 5 : Int) : Rat) := by rw [hopd]; push_cast; ring
      rw [hcast, truncInt_intCast]
    rw [decodeNumRays, if_pos h4, htr]; ring
  · simp [decodeNumRays, not_lt.mpr h4, he]

/-- Witness for C1 at concrete inputs: a header with `opd = 1005` decodes to
`1000`, and a header with `opd = 0`, `error = 1000` decodes to `1000`. -/
theorem claim_C1_decodeNumRays_witness :
    decodeNumRays { zeroRD with opd := 1005 } = 1000
    ∧ decodeNumRays { zeroRD with opd := 0, error := 1000 } = 1000 := by
  constructor
  · exact (claim_C1_decodeNumRays { zeroRD with opd := 1005 } 1000).2.2.1
      (by norm_num) (by norm_num)
  · exact (claim_C1_decodeNumRays { zeroRD with opd := 0, error := 1000 } 1000).2.2.2
      (by norm_num [zeroRD]) (by norm_num)

/-- Counterexample to claim C7: on the input `1,"C:\a b, c.txt",ZEMAX2`,
token index 1 is NOT `C:\a b, c.txt` — `GetString` copies the double-quote
characters themselves into the token, so the quotes are part of the result. -/
theorem claim_C7_counterexample :
    ¬ GetString ("1,\"C:\\a b, c.txt\",ZEMAX2".toList) 1 = "C:\\a b, c.txt".toList := by
  decide

/-- Claim C7 (amended): `GetString` splits on space, comma and line-break
characters; a double quote starts a run copied until a matching closing
quote or end of input, with no escape character and no doubled-quote
convention, and the quote characters themselves are retained in the token.
The index is 0-based and the empty string is returned when fewer than `n+1`
tokens exist.  On `1,"C:\a b, c.txt",ZEMAX2`: token 0 is `1`, token 1 is
`"C:\a b, c.txt"` (embedded comma and spaces preserved, quotes included),
token 2 is `ZEMAX2`, and token 5 is empty; splitting on blank and newline
is shown on `a b\nc,d`; `"a""b"` stays one token (no doubled-quote escape);
an unterminated quote runs to end of input. -/
theorem claim_C7_amended :
    GetString ("1,\"C:\\a b, c.txt\",ZEMAX2".toList) 0 = "1".toList
    ∧ GetString ("1,\"C:\\a b, c.txt\",ZEMAX2".toList) 1 = "\"C:\\a b, c.txt\"".toList
    ∧ GetString ("1,\"C:\\a b, c.txt\",ZEMAX2".toList) 2 = "ZEMAX2".toList
    ∧ GetString ("1,\"C:\\a b, c.txt\",ZEMAX2".toList) 5 = "".toList
    ∧ GetString ("a b\nc,d".toList) 1 = "b".toList
    ∧ GetString ("a b\nc,d".toList) 2 = "c".toList
    ∧ GetString ("\"a\"\"b\"".toList) 0 = "\"a\"\"b\"".toList
    ∧ GetString ("\"unterminated".toList) 0 = "\"unterminated".toList := by
  decide

section WaitLoop

/-- Exit of `WaitForData` (`arrayTraceClient.c:469-498`).  `replied i`: the
`while (!GotData)` condition failed at iteration `i` (a dispatched reply had
set `GotData`); `timedOut gd i`: the function returned through the timeout
branch at iteration `i`, setting `RETVAL = -998` (`gd` records whether
`GotData` had nevertheless been set during that final iteration's drain). -/
inductive WaitExit where
  | replied (iter : Nat)
  | timedOut (gotData : Bool) (iter : Nat)
deriving DecidableEq, Repr

/-- State of the `WaitForData` loop: the `GotData` flag, the `sleep_count`
counter, and the number of completed `Sleep(100)` calls (idealized elapsed
wall-clock time is `100 * iter` milliseconds). -/
structure WaitState where
  gotData : Bool
  sleepCount : Nat
  iter : Nat
deriving DecidableEq, Repr

/-- The `PeekMessage`/`DispatchMessage` drain at the head of the loop body:
with `reply = some r` a `WM_DDE_DATA` message is pending from iteration `r`
on, and dispatching it runs the `WM_DDE_DATA` handler, which sets `GotData`;
with `reply = none` the peer never replies. -/
def dispatchReply (reply : Option Nat) (iter : Nat) : Bool :=
  match reply with
  | some r => decide (r ≤ iter)
  | none => false

/-- One iteration of the `while (!GotData)` loop of `WaitForData`
(`arrayTraceClient.c:478-497`): test `GotData`, drain pending DDE messages,
`Sleep(100)`, increment `sleep_count`, and whenever `sleep_count` exceeds 10
compare elapsed time against `DdeTimeout`, returning through the timeout
branch if it is exceeded (resetting `sleep_count` otherwise). -/
def waitStep (timeout : Nat) (reply : Option Nat) (s : WaitState) : WaitState ⊕ WaitExit :=
  if s.gotData then Sum.inr (WaitExit.replied s.iter)
  else if 10 < s.sleepCount + 1 then
    if timeout < 100 * (s.iter + 1) then
      Sum.inr (WaitExit.timedOut (dispatchReply reply s.iter) (s.iter + 1))
    else Sum.inl ⟨dispatchReply reply s.iter, 0, s.iter + 1⟩
  else Sum.inl ⟨dispatchReply reply s.iter, s.sleepCount + 1, s.iter + 1⟩

/-- Fuel-indexed iteration of `waitStep`; `none` means the fuel ran out
before the loop exited. -/
def waitRun (timeout : Nat) (reply : Option Nat) : Nat → WaitState → Option WaitExit
  | 0, _ => none
  | fuel + 1, s =>
    match waitStep timeout reply s with
    | Sum.inr e => some e
    | Sum.inl s2 => waitRun timeout reply fuel s2

lemma dispatchReply_none (iter : Nat) : dispatchReply none iter = false := rfl

lemma dispatchReply_lt {r iter : Nat} (h : ¬ r ≤ iter) :
    dispatchReply (some r) iter = false := by
  simp [dispatchReply, h]

lemma waitRun_succ_replied (timeout : Nat) (reply : Option Nat) (fuel sc iter : Nat) :
    waitRun timeout reply (fuel + 1) ⟨true, sc, iter⟩ = some (WaitExit.replied iter) := by
  simp [waitRun, waitStep]

lemma waitRun_succ_exit (timeout : Nat) (reply : Option Nat) (fuel sc iter : Nat)
    (h1 : 10 < sc + 1) (h2 : timeout < 100 * (iter + 1)) :
    waitRun timeout reply (fuel + 1) ⟨false, sc, iter⟩
      = some (WaitExit.timedOut (dispatchReply reply iter) (iter + 1)) := by
  simp [waitRun, waitStep, h1, h2]

lemma waitRun_succ_reset (timeout : Nat) (reply : Option Nat) (fuel sc iter : Nat)
    (h1 : 10 < sc + 1) (h2 : ¬ timeout < 100 * (iter + 1)) :
    waitRun timeout reply (fuel + 1) ⟨false, sc, iter⟩
      = waitRun timeout reply fuel ⟨dispatchReply reply iter, 0, iter + 1⟩ := by
  simp [waitRun, waitStep, h1, h2]

lemma waitRun_succ_cont (timeout : Nat) (reply : Option Nat) (fuel sc iter : Nat)
    (h1 : ¬ 10 < sc + 1) :
    waitRun timeout reply (fuel + 1) ⟨false, sc, iter⟩
      = waitRun timeout reply fuel ⟨dispatchReply reply iter, sc + 1, iter + 1⟩ := by
  simp [waitRun, waitStep, h1]

lemma waitRun_mono (timeout : Nat) (reply : Option Nat) :
    ∀ fuel fuel2 (s : WaitState) (e : WaitExit),
      waitRun timeout reply fuel s = some e → fuel ≤ fuel2 →
      waitRun timeout reply fuel2 s = some e := by
  intro fuel
  induction fuel with
  | zero => intro fuel2 s e h; simp [waitRun] at h
  | succ f ih =>
    intro fuel2 s e h hle
    obtain ⟨f2, rfl⟩ : ∃ f2, fuel2 = f2 + 1 := ⟨fuel2 - 1, by omega⟩
    simp only [waitRun] at h ⊢
    cases hs : waitStep timeout reply s with
    | inr e2 => rw [hs] at h; exact h
    | inl s2 => rw [hs] at h; exact ih f2 s2 e h (by omega)

lemma waitRun_isSome (timeout : Nat) (reply : Option Nat) :
    ∀ fuel (g : Bool) (sc iter : Nat), sc ≤ 10 →
      (timeout + 200 - 100 * iter) + (12 - sc) ≤ fuel →
      (waitRun timeout reply fuel ⟨g, sc, iter⟩).isSome = true := by
  intro fuel
  induction fuel with
  | zero => intro g sc iter hsc hb; omega
  | succ f ih =>
    intro g sc iter hsc hb
    cases g with
    | true => rw [waitRun_succ_replied]; rfl
    | false =>
      by_cases h1 : 10 < sc + 1
      · by_cases h2 : timeout < 100 * (iter + 1)
        · rw [waitRun_succ_exit timeout reply f sc iter h1 h2]; rfl
        · rw [waitRun_succ_reset timeout reply f sc iter h1 h2]
          exact ih _ 0 (iter + 1) (by omega) (by omega)
      · rw [waitRun_succ_cont timeout reply f sc iter h1]
        exact ih _ (sc + 1) (iter + 1) (by omega) (by omega)

lemma waitRun_timedOut_facts (timeout : Nat) (reply : Option Nat) :
    ∀ fuel (g : Bool) (sc iter : Nat) (gd : Bool) (e : Nat),
      waitRun timeout reply fuel ⟨g, sc, iter⟩ = some (WaitExit.timedOut gd e) →
      timeout < 100 * e ∧ iter < e := by
  intro fuel
  induction fuel with
  | zero => intro g sc iter gd e h; simp [waitRun] at h
  | succ f ih =>
    intro g sc iter gd e h
    cases g with
    | true => rw [waitRun_succ_replied] at h; simp at h
    | false =>
      by_cases h1 : 10 < sc + 1
      · by_cases h2 : timeout < 100 * (iter + 1)
        · rw [waitRun_succ_exit timeout reply f sc iter h1 h2] at h
          simp only [Option.some.injEq, WaitExit.timedOut.injEq] at h
          obtain ⟨-, rfl⟩ := h
          exact ⟨h2, by omega⟩
        · rw [waitRun_succ_reset timeout reply f sc iter h1 h2] at h
          have := ih _ 0 (iter + 1) gd e h
          exact ⟨this.1, by omega⟩
      · rw [waitRun_succ_cont timeout reply f sc iter h1] at h
        have := ih _ (sc + 1) (iter + 1) gd e h
        exact ⟨this.1, by omega⟩

lemma waitRun_none (timeout : Nat) :
    ∀ fuel (sc iter : Nat), sc ≤ 10 →
      (timeout + 200 - 100 * iter) + (12 - sc) ≤ fuel →
      ∃ e m, waitRun timeout none fuel ⟨false, sc, iter⟩ = some (WaitExit.timedOut false e)
        ∧ timeout < 100 * e
        ∧ (100 * e ≤ timeout + 1100 ∨ e = iter + (11 - sc))
        ∧ e + sc = iter + 11 * m := by
  intro fuel
  induction fuel with
  | zero => intro sc iter hsc hb; omega
  | succ f ih =>
    intro sc iter hsc hb
    by_cases h1 : 10 < sc + 1
    · by_cases h2 : timeout < 100 * (iter + 1)
      · rw [waitRun_succ_exit timeout none f sc iter h1 h2, dispatchReply_none]
        exact ⟨iter + 1, 1, rfl, h2, Or.inr (by omega), by omega⟩
      · rw [waitRun_succ_reset timeout none f sc iter h1 h2, dispatchReply_none]
        obtain ⟨e, m, hrun, hpast, hslack, hmod⟩ := ih 0 (iter + 1) (by omega) (by omega)
        refine ⟨e, m + 1, hrun, hpast, Or.inl ?_, by omega⟩
        rcases hslack with h | h
        · exact h
        · omega
    · rw [waitRun_succ_cont timeout none f sc iter h1, dispatchReply_none]
      obtain ⟨e, m, hrun, hpast, hslack, hmod⟩ := ih (sc + 1) (iter + 1) (by omega) (by omega)
      refine ⟨e, m, hrun, hpast, ?_, by omega⟩
      rcases hslack with h | h
      · exact Or.inl h
      · exact Or.inr (by omega)

lemma waitRun_timely (timeout r : Nat) :
    ∀ fuel (sc iter : Nat), iter ≤ r → 100 * (r + 1) ≤ timeout →
      r + 2 - iter ≤ fuel →
      waitRun timeout (some r) fuel ⟨false, sc, iter⟩ = some (WaitExit.replied (r + 1)) := by
  intro fuel
  induction fuel with
  | zero => intro sc iter hr hto hb; omega
  | succ f ih =>
    intro sc iter hr hto hb
    have hnot : ¬ timeout < 100 * (iter + 1) := by
      have : iter + 1 ≤ r + 1 := by omega
      omega
    by_cases hlast : iter = r
    · subst hlast
      have hd : dispatchReply (some iter) iter = true := by simp [dispatchReply]
      obtain ⟨f2, rfl⟩ : ∃ f2, f = f2 + 1 := ⟨f - 1, by omega⟩
      by_cases h1 : 10 < sc + 1
      · rw [waitRun_succ_reset timeout (some iter) (f2 + 1) sc iter h1 hnot, hd,
          waitRun_succ_replied]
      · rw [waitRun_succ_cont timeout (some iter) (f2 + 1) sc iter h1, hd,
          waitRun_succ_replied]
    · have hd : dispatchReply (some r) iter = false := dispatchReply_lt (by omega)
      by_cases h1 : 10 < sc + 1
      · rw [waitRun_succ_reset timeout (some r) f sc iter h1 hnot, hd]
        exact ih 0 (iter + 1) (by omega) hto (by omega)
      · rw [waitRun_succ_cont timeout (some r) f sc iter h1, hd]
        exact ih (sc + 1) (iter + 1) (by omega) hto (by omega)

lemma waitRun_late (timeout r : Nat) :
    ∀ fuel (g : Bool) (sc iter e : Nat),
      waitRun timeout none fuel ⟨g, sc, iter⟩ = some (WaitExit.timedOut false e) → e ≤ r →
      waitRun timeout (some r) fuel ⟨g, sc, iter⟩ = some (WaitExit.timedOut false e) := by
  intro fuel
  induction fuel with
  | zero => intro g sc iter e h; simp [waitRun] at h
  | succ f ih =>
    intro g sc iter e h hle
    cases g with
    | true => rw [waitRun_succ_replied] at h; simp at h
    | false =>
      have hlt : iter < e := (waitRun_timedOut_facts timeout none (f + 1) false sc iter _ _ h).2
      have hd : dispatchReply (some r) iter = false := dispatchReply_lt (by omega)
      by_cases h1 : 10 < sc + 1
      · by_cases h2 : timeout < 100 * (iter + 1)
        · rw [waitRun_succ_exit timeout none f sc iter h1 h2, dispatchReply_none] at h
          rw [waitRun_succ_exit timeout (some r) f sc iter h1 h2, hd]
          exact h
        · rw [waitRun_succ_reset timeout none f sc iter h1 h2, dispatchReply_none] at h
          rw [waitRun_succ_reset timeout (some r) f sc iter h1 h2, hd]
          exact ih false 0 (iter + 1) e h hle
      · rw [waitRun_succ_cont timeout none f sc iter h1, dispatchReply_none] at h
        rw [waitRun_succ_cont timeout (some r) f sc iter h1, hd]
        exact ih false (sc + 1) (iter + 1) e h hle

/-- Fuel proved sufficient for `waitRun` to reach the loop exit from the
initial state. -/
def waitFuel (timeout : Nat) : Nat := timeout + 212

/-- `WaitForData` as a total function: the exit of the polling loop started
from `GotData = 0`, `sleep_count = 0` at time 0. -/
def waitForDataTotal (timeout : Nat) (reply : Option Nat) : WaitExit :=
  (waitRun timeout reply (waitFuel timeout) ⟨false, 0, 0⟩).getD (WaitExit.timedOut false 0)

lemma waitForDataTotal_eq (timeout : Nat) (reply : Option Nat) (fuel : Nat) (e : WaitExit) :
    waitRun timeout reply fuel ⟨false, 0, 0⟩ = some e →
    waitForDataTotal timeout reply = e := by
  intro h
  have hs : (waitRun timeout reply (waitFuel timeout) ⟨false, 0, 0⟩).isSome = true :=
    waitRun_isSome timeout reply (waitFuel timeout) false 0 0 (by omega)
      (by simp only [waitFuel]; omega)
  obtain ⟨e2, he2⟩ := Option.isSome_iff_exists.mp hs
  have hmax1 := waitRun_mono timeout reply fuel (max fuel (waitFuel timeout)) _ _ h
    (le_max_left _ _)
  have hmax2 := waitRun_mono timeout reply (waitFuel timeout) (max fuel (waitFuel timeout)) _ _
    he2 (le_max_right _ _)
  rw [hmax1] at hmax2
  rw [waitForDataTotal, he2]
  simp only [Option.getD_some]
  exact (Option.some_inj.mp hmax2).symm

end WaitLoop

lemma waitForDataTotal_none (timeout : Nat) :
    ∃ e, waitForDataTotal timeout none = WaitExit.timedOut false e
      ∧ timeout < 100 * e ∧ 100 * e ≤ timeout + 1100 ∧ e % 11 = 0 := by
  obtain ⟨e, m, hrun, hpast, hslack, hmod⟩ :=
    waitRun_none timeout (waitFuel timeout) 0 0 (by omega) (by simp only [waitFuel]; omega)
  refine ⟨e, waitForDataTotal_eq timeout none _ _ hrun, hpast, ?_, ?_⟩
  · rcases hslack with h | h
    · exact h
    · omega
  · omega

lemma waitForDataTotal_timely (timeout r : Nat) (h : 100 * (r + 1) ≤ timeout) :
    waitForDataTotal timeout (some r) = WaitExit.replied (r + 1) :=
  waitForDataTotal_eq timeout (some r) (r + 2) _
    (waitRun_timely timeout r (r + 2) 0 0 (by omega) h (by omega))

lemma waitForDataTotal_timedOut_past (timeout : Nat) (reply : Option Nat) (gd : Bool) (e : Nat)
    (h : waitForDataTotal timeout reply = WaitExit.timedOut gd e) : timeout < 100 * e := by
  have hs : (waitRun timeout reply (waitFuel timeout) ⟨false, 0, 0⟩).isSome = true :=
    waitRun_isSome timeout reply (waitFuel timeout) false 0 0 (by omega)
      (by simp only [waitFuel]; omega)
  obtain ⟨e2, he2⟩ := Option.isSome_iff_exists.mp hs
  have he : waitForDataTotal timeout reply = e2 := waitForDataTotal_eq timeout reply _ _ he2
  rw [h] at he
  rw [← he] at he2
  exact (waitRun_timedOut_facts timeout reply (waitFuel timeout) false 0 0 gd e he2).1

lemma waitForDataTotal_late (timeout r e : Nat)
    (h : waitForDataTotal timeout none = WaitExit.timedOut false e) (hle : e ≤ r) :
    waitForDataTotal timeout (some r) = WaitExit.timedOut false e := by
  have hs : (waitRun timeout none (waitFuel timeout) ⟨false, 0, 0⟩).isSome = true :=
    waitRun_isSome timeout none (waitFuel timeout) false 0 0 (by omega)
      (by simp only [waitFuel]; omega)
  obtain ⟨e2, he2⟩ := Option.isSome_iff_exists.mp hs
  have he : waitForDataTotal timeout none = e2 := waitForDataTotal_eq timeout none _ _ he2
  rw [h] at he
  rw [← he] at he2
  exact waitForDataTotal_eq timeout (some r) (waitFuel timeout) _
    (waitRun_late timeout r (waitFuel timeout) false 0 0 e he2 hle)

/-- Claim C4: `WaitForData` terminates on every execution: it returns as soon
as `GotData` is set by a dispatched reply (a reply dispatched at poll
iteration `r` before the timeout makes the loop exit at iteration `r + 1`),
and otherwise it returns through the `RETVAL = -998` timeout branch once
elapsed time exceeds the configured timeout, regardless of whether the peer
eventually replies (a reply scheduled at or after the timeout exit leaves the
exit unchanged).  The timeout is compared only every 11th iteration of the
100 ms sleep loop (the exit iteration is a multiple of 11), so the exit
occurs within that polling granularity's slack — at most 1100 ms — after the
configured duration. -/
theorem claim_C4_waitForData :
    ∀ (timeout : Nat) (reply : Option Nat),
      (∃ fuel e, waitRun timeout reply fuel ⟨false, 0, 0⟩ = some e
        ∧ waitForDataTotal timeout reply = e)
      ∧ (reply = none → ∃ e, waitForDataTotal timeout none = WaitExit.timedOut false e
          ∧ timeout < 100 * e ∧ 100 * e ≤ timeout + 1100 ∧ e % 11 = 0)
      ∧ (∀ r, reply = some r → 100 * (r + 1) ≤ timeout →
          waitForDataTotal timeout (some r) = WaitExit.replied (r + 1))
      ∧ (∀ gd e, waitForDataTotal timeout reply = WaitExit.timedOut gd e → timeout < 100 * e)
      ∧ (∀ r e, reply = some r → waitForDataTotal timeout none = WaitExit.timedOut false e →
          e ≤ r → waitForDataTotal timeout (some r) = WaitExit.timedOut false e) := by
  intro timeout reply
  refine ⟨?_, fun _ => waitForDataTotal_none timeout,
    fun r _ h => waitForDataTotal_timely timeout r h,
    fun gd e h => waitForDataTotal_timedOut_past timeout reply gd e h,
    fun r e _ h hle => waitForDataTotal_late timeout r e h hle⟩
  have hs : (waitRun timeout reply (waitFuel timeout) ⟨false, 0, 0⟩).isSome = true :=
    waitRun_isSome timeout reply (waitFuel timeout) false 0 0 (by omega)
      (by simp only [waitFuel]; omega)
  obtain ⟨e2, he2⟩ := Option.isSome_iff_exists.mp hs
  exact ⟨waitFuel timeout, e2, he2, waitForDataTotal_eq timeout reply _ _ he2⟩

/-- Witness for C4 at concrete inputs: with a 1000 ms timeout and no reply
the loop exits through the timeout branch at iteration 11 (1100 ms elapsed);
with a reply dispatched at iteration 3 and a 2000 ms timeout it exits with
`GotData` at iteration 4; a reply scheduled at iteration 50 (after the
iteration-11 timeout exit) leaves the timeout exit unchanged. -/
theorem claim_C4_waitForData_witness :
    (∃ e, waitForDataTotal 1000 none = WaitExit.timedOut false e
      ∧ 1000 < 100 * e ∧ 100 * e ≤ 1000 + 1100 ∧ e % 11 = 0)
    ∧ waitForDataTotal 2000 (some 3) = WaitExit.replied 4
    ∧ 1000 < 100 * 11
    ∧ waitForDataTotal 1000 (some 50) = WaitExit.timedOut false 11 := by
  refine ⟨(claim_C4_waitForData 1000 none).2.1 rfl,
    (claim_C4_waitForData 2000 (some 3)).2.2.1 3 rfl (by norm_num),
    (claim_C4_waitForData 1000 none).2.2.2.1 false 11 (by decide),
    (claim_C4_waitForData 1000 (some 50)).2.2.2.2 50 11 rfl (by decide) (by norm_num)⟩


section Transport

/-- Observable behaviour of the peer (the ZEMAX server) during one round
trip: whether some window answers the `WM_DDE_INITIATE` broadcast, whether
`PostMessage` of the `WM_DDE_POKE` succeeds, at which poll iteration (if
ever) the reply `WM_DDE_DATA` is dispatched, and the record contents of the
reply buffer. -/
structure TraceEnv where
  connectAnswered : Bool
  pokePostOk : Bool
  reply : Option Nat
  replyData : Nat → DDERAYDATA

/-- `DdeTimeout` selection at the top of `arrayTrace`
(`arrayTraceClient.c:81-84`): `if (timeout > DDE_TIMEOUT) DdeTimeout =
timeout; else DdeTimeout = DDE_TIMEOUT;` with `DDE_TIMEOUT = 1000` from
`arrayTraceClient.h`. -/
def ddeTimeoutOf (timeout : Nat) : Nat :=
  if 1000 < timeout then timeout else 1000

/-- Effects of one `PostArrayTraceMessage` call (`arrayTraceClient.c:549-608`):
its own return value, the value (if any) it or `WaitForData` stores into the
global `RETVAL`, the record bytes serialized into the poke buffer, and the
fate of that cross-process buffer. -/
structure PostEffects where
  ret : Int
  retvalWrite : Option Int
  numbytes : Int
  pokeAllocated : Nat
  pokeFreedByClient : Nat
  pokeDeliveredToPeer : Bool
deriving DecidableEq, Repr

/-- `PostArrayTraceMessage` (`arrayTraceClient.c:549-608`): derive the ray
count from the header, allocate the shared poke buffer and copy
`(1 + numrays) * sizeof(DDERAYDATA)` bytes into it, clear `GotData`, post the
`WM_DDE_POKE`.  If the post fails the buffer is freed, `RETVAL = -999`, and
`-1` is returned; otherwise ownership passes to the peer and `WaitForData`
runs, after which `GotData` decides the `0`/`-1` return. -/
def postArrayTraceMessage (header : DDERAYDATA) (env : TraceEnv) (ddeTimeout : Nat) :
    PostEffects :=
  let numrays := decodeNumRays header
  let numbytes := (1 + numrays) * (sizeofDDERAYDATA : Int)
  if env.pokePostOk = false then
    { ret := -1, retvalWrite := some (-999), numbytes := numbytes,
      pokeAllocated := 1, pokeFreedByClient := 1, pokeDeliveredToPeer := false }
  else
    match waitForDataTotal ddeTimeout env.reply with
    | WaitExit.replied _ =>
      { ret := 0, retvalWrite := none, numbytes := numbytes,
        pokeAllocated := 1, pokeFreedByClient := 0, pokeDeliveredToPeer := true }
    | WaitExit.timedOut gd _ =>
      { ret := if gd then 0 else -1, retvalWrite := some (-998), numbytes := numbytes,
        pokeAllocated := 1, pokeFreedByClient := 0, pokeDeliveredToPeer := true }

/-- Return value of `arrayTrace` (`arrayTraceClient.c:58-97`): after the
`WM_USER_INITIATE` handling (connect broadcast; on no answer `RETVAL = -999`;
otherwise `rayTraceFunction`, which calls `PostArrayTraceMessage` and
discards its return value) the message pump ends and `arrayTrace` returns
the process-global `RETVAL`, whose value at entry is `retval0`. -/
def arrayTraceRet (header : DDERAYDATA) (retval0 : Int) (env : TraceEnv) (timeout : Nat) :
    Int :=
  if env.connectAnswered = false then -999
  else
    match (postArrayTraceMessage header env (ddeTimeoutOf timeout)).retvalWrite with
    | some v => v
    | none => retval0

/-- The memcpy in the `WM_DDE_DATA` arm (`arrayTraceClient.c:387`): the first
`ngNumRays + 1` records of the caller's buffer are overwritten with the
peer's reply records, the rest are untouched. -/
def copyBack (RD : List DDERAYDATA) (f : Nat → DDERAYDATA) (ngNumRays : Int) :
    List DDERAYDATA :=
  (List.range RD.length).map fun i =>
    if (Int.ofNat i) < ngNumRays + 1 then f i else RD.getD i zeroRD

/-- Whether a `WM_DDE_DATA` message was dispatched during the round trip (the
handler runs either when the wait loop exits through `GotData` or when the
reply lands in the same iteration in which the timeout check fires). -/
def replyDispatched (env : TraceEnv) (ddeTimeout : Nat) : Bool :=
  env.connectAnswered && env.pokePostOk &&
    (match waitForDataTotal ddeTimeout env.reply with
     | WaitExit.replied _ => true
     | WaitExit.timedOut gd _ => gd)

/-- Contents of the caller's record buffer after `arrayTrace`: overwritten by
the `WM_DDE_DATA` memcpy when a reply was dispatched, unchanged otherwise. -/
def arrayTraceRD (RD : List DDERAYDATA) (env : TraceEnv) (timeout : Nat) :
    List DDERAYDATA :=
  if replyDispatched env (ddeTimeoutOf timeout) then
    copyBack RD env.replyData (decodeNumRays (RD.getD 0 zeroRD))
  else RD

/-- Flags of one incoming `WM_DDE_DATA` message. -/
structure DataMsgEnv where
  formatText : Bool
  ackReq : Bool
  ackPostOk : Bool
  release : Bool
  handleValid : Bool
deriving DecidableEq, Repr

/-- Observable effects of the `WM_DDE_DATA` arm of `WndProc` on the
peer-provided global data handle. -/
structure DdeDataEffects where
  gotData : Bool
  unlocks : Nat
  frees : Nat
  ackPosted : Bool
  copiedToBuffer : Bool
deriving DecidableEq, Repr

/-- The `WM_DDE_DATA` arm of `WndProc` (`arrayTraceClient.c:366-413`): lock
the handle, copy the payload when the format tag is `CF_TEXT`, set
`GotData = 1`, and, when the peer requested acknowledgement, post a
`WM_DDE_ACK`; if that post fails, unlock and free the handle and return
early.  Otherwise unlock, and free when `fRelease` is set or `DdeAck.fAck`
is `FALSE` (it always is: `DdeAck.fAck` is initialized to `FALSE` and never
modified). -/
def wmDdeData (env : DataMsgEnv) : DdeDataEffects :=
  let fAck : Bool := false
  let copied := env.formatText
  if env.ackReq && !env.ackPostOk then
    if env.handleValid then
      { gotData := true, unlocks := 1, frees := 1, ackPosted := false,
        copiedToBuffer := copied }
    else
      { gotData := true, unlocks := 0, frees := 0, ackPosted := false,
        copiedToBuffer := copied }
  else
    { gotData := true, unlocks := 1, frees := if env.release || !fAck then 1 else 0,
      ackPosted := env.ackReq && env.ackPostOk, copiedToBuffer := copied }

/-- The process-global `RETVAL` after a sequence of `arrayTrace` calls, each
described by its header record, peer environment and timeout argument:
`arrayTrace` returns the final `RETVAL`, which persists into the next call. -/
def retvalAfter (init : Int) (calls : List (DDERAYDATA × TraceEnv × Nat)) : Int :=
  calls.foldl (fun rv c => arrayTraceRet c.1 rv c.2.1 c.2.2) init

end Transport

lemma postArrayTraceMessage_retvalWrite (header : DDERAYDATA) (env : TraceEnv) (t : Nat) :
    (postArrayTraceMessage header env t).retvalWrite = none
    ∨ (postArrayTraceMessage header env t).retvalWrite = some (-999)
    ∨ (postArrayTraceMessage header env t).retvalWrite = some (-998) := by
  unfold postArrayTraceMessage
  split
  · right; left; rfl
  · split
    · left; rfl
    · right; right; rfl

lemma arrayTraceRet_cases (header : DDERAYDATA) (retval0 : Int) (env : TraceEnv) (t : Nat) :
    arrayTraceRet header retval0 env t = retval0
    ∨ arrayTraceRet header retval0 env t = -999
    ∨ arrayTraceRet header retval0 env t = -998 := by
  unfold arrayTraceRet
  split
  · right; left; rfl
  · rcases postArrayTraceMessage_retvalWrite header env (ddeTimeoutOf t) with h | h | h <;>
      rw [h]
    · left; rfl
    · right; left; rfl
    · right; right; rfl

lemma arrayTraceRet_noConnect (header : DDERAYDATA) (retval0 : Int) (env : TraceEnv) (t : Nat)
    (h : env.connectAnswered = false) : arrayTraceRet header retval0 env t = -999 := by
  unfold arrayTraceRet
  rw [if_pos h]

lemma arrayTraceRet_pokeFail (header : DDERAYDATA) (retval0 : Int) (env : TraceEnv) (t : Nat)
    (h1 : env.connectAnswered = true) (h2 : env.pokePostOk = false) :
    arrayTraceRet header retval0 env t = -999 := by
  unfold arrayTraceRet postArrayTraceMessage
  rw [if_neg (by simp [h1]), if_pos h2]

lemma arrayTraceRet_noReply (header : DDERAYDATA) (retval0 : Int) (env : TraceEnv) (t : Nat)
    (h1 : env.connectAnswered = true) (h2 : env.pokePostOk = true) (h3 : env.reply = none) :
    arrayTraceRet header retval0 env t = -998 := by
  obtain ⟨e, he, -⟩ := waitForDataTotal_none (ddeTimeoutOf t)
  unfold arrayTraceRet postArrayTraceMessage
  rw [if_neg (by simp [h1]), if_neg (by simp [h2]), h3, he]

lemma arrayTraceRet_success (header : DDERAYDATA) (retval0 : Int) (env : TraceEnv) (t r : Nat)
    (h1 : env.connectAnswered = true) (h2 : env.pokePostOk = true) (h3 : env.reply = some r)
    (h4 : 100 * (r + 1) ≤ ddeTimeoutOf t) :
    arrayTraceRet header retval0 env t = retval0 := by
  have he := waitForDataTotal_timely (ddeTimeoutOf t) r h4
  unfold arrayTraceRet postArrayTraceMessage
  rw [if_neg (by simp [h1]), if_neg (by simp [h2]), h3, he]

/-- A peer environment for a fully successful round trip: the connect
broadcast is answered, the poke posts successfully, and the reply is
dispatched at the first poll iteration. -/
def successEnv : TraceEnv :=
  { connectAnswered := true, pokePostOk := true, reply := some 0,
    replyData := fun _ => zeroRD }

/-- Counterexample to claim C2: the round trip completes fully successfully
(the wait loop exits through `GotData` at iteration 1), yet `arrayTrace`
returns `-998`, not `0`, because it returns the process-global `RETVAL`,
here still holding `-998` from an earlier timed-out call.  So `0 = success`
does not hold as a status contract of `arrayTrace` (and `-1`, the internal
`PostArrayTraceMessage` code, is never among its return values). -/
theorem claim_C2_counterexample :
    waitForDataTotal (ddeTimeoutOf 0) successEnv.reply = WaitExit.replied 1
    ∧ arrayTraceRet zeroRD (-998) successEnv 0 = -998 := by
  constructor
  · decide
  · decide

/-- Claim C2 (amended): `arrayTrace` returns the process-global `RETVAL`:
`-999` when no window answers the connect broadcast or when posting the poke
fails, `-998` when the wait loop times out, and otherwise the value `RETVAL`
held at entry (`0` in a process where no earlier call failed).  The internal
`-1` return of `PostArrayTraceMessage` (reply never arrived) is discarded by
`rayTraceFunction` and never propagated to the caller. -/
theorem claim_C2_amended :
    ∀ (header : DDERAYDATA) (retval0 : Int) (env : TraceEnv) (timeout : Nat),
      (env.connectAnswered = false → arrayTraceRet header retval0 env timeout = -999)
      ∧ (env.connectAnswered = true → env.pokePostOk = false →
          arrayTraceRet header retval0 env timeout = -999)
      ∧ (env.connectAnswered = true → env.pokePostOk = true → env.reply = none →
          arrayTraceRet header retval0 env timeout = -998)
      ∧ (∀ r, env.connectAnswered = true → env.pokePostOk = true → env.reply = some r →
          100 * (r + 1) ≤ ddeTimeoutOf timeout →
          arrayTraceRet header retval0 env timeout = retval0)
      ∧ (retval0 ≠ -1 → arrayTraceRet header retval0 env timeout ≠ -1) := by
  intro header retval0 env timeout
  refine ⟨arrayTraceRet_noConnect header retval0 env timeout,
    arrayTraceRet_pokeFail header retval0 env timeout,
    arrayTraceRet_noReply header retval0 env timeout,
    fun r => arrayTraceRet_success header retval0 env timeout r, fun hne => ?_⟩
  rcases arrayTraceRet_cases header retval0 env timeout with h | h | h <;> rw [h]
  · exact hne
  · norm_num
  · norm_num

/-- Witness for the amended C2 at concrete inputs: connect failure and poke
failure give `-999`, no reply gives `-998`, and a successful round trip in a
fresh process (`RETVAL = 0` at entry) gives `0`. -/
theorem claim_C2_amended_witness :
    arrayTraceRet zeroRD 0
        { connectAnswered := false, pokePostOk := true, reply := none,
          replyData := fun _ => zeroRD } 0 = -999
    ∧ arrayTraceRet zeroRD 0
        { connectAnswered := true, pokePostOk := false, reply := none,
          replyData := fun _ => zeroRD } 0 = -999
    ∧ arrayTraceRet zeroRD 0
        { connectAnswered := true, pokePostOk := true, reply := none,
          replyData := fun _ => zeroRD } 0 = -998
    ∧ arrayTraceRet zeroRD 0 successEnv 0 = 0 :=
  ⟨(claim_C2_amended zeroRD 0 _ 0).1 rfl,
   (claim_C2_amended zeroRD 0 _ 0).2.1 rfl rfl,
   (claim_C2_amended zeroRD 0 _ 0).2.2.1 rfl rfl rfl,
   (claim_C2_amended zeroRD 0 successEnv 0).2.2.2.1 0 rfl rfl rfl (by norm_num [ddeTimeoutOf])⟩

/-- Claim C3: on every exit path the client releases exactly once each
cross-process buffer it currently owns.  If posting the poke fails,
`PostArrayTraceMessage` frees the just-allocated poke buffer before
returning `-1`; on a successful post ownership passes to the peer and the
client does not free it.  The `WM_DDE_DATA` handler unlocks and frees the
peer-provided data handle exactly once on each of its exit paths (both the
early ack-post-failure return and the normal clean-up) — never zero times
and never twice. -/
theorem claim_C3_bufferDiscipline :
    ∀ (menv : DataMsgEnv) (header : DDERAYDATA) (env : TraceEnv) (t : Nat),
      (menv.handleValid = true →
        (wmDdeData menv).frees = 1 ∧ (wmDdeData menv).unlocks = 1)
      ∧ (postArrayTraceMessage header env t).pokeAllocated = 1
      ∧ (env.pokePostOk = false →
          (postArrayTraceMessage header env t).pokeFreedByClient = 1
          ∧ (postArrayTraceMessage header env t).pokeDeliveredToPeer = false
          ∧ (postArrayTraceMessage header env t).ret = -1)
      ∧ (env.pokePostOk = true →
          (postArrayTraceMessage header env t).pokeFreedByClient = 0
          ∧ (postArrayTraceMessage header env t).pokeDeliveredToPeer = true) := by
  intro menv header env t
  refine ⟨fun hv => ?_, ?_, fun hp => ?_, fun hp => ?_⟩
  · by_cases hb : menv.ackReq && !menv.ackPostOk
    · simp [wmDdeData, hb, hv]
    · simp [wmDdeData, hb]
  · unfold postArrayTraceMessage
    split
    · rfl
    · split <;> rfl
  · unfold postArrayTraceMessage
    rw [if_pos hp]
    exact ⟨rfl, rfl, rfl⟩
  · unfold postArrayTraceMessage
    rw [if_neg (by simp [hp])]
    split <;> exact ⟨rfl, rfl⟩

/-- A plain reply message: format matches, no acknowledgement requested,
`fRelease` set, valid handle. -/
def plainDataMsg : DataMsgEnv :=
  { formatText := true, ackReq := false, ackPostOk := true, release := true
    handleValid := true }

/-- A peer environment where the poke post fails. -/
def pokeFailEnv : TraceEnv :=
  { connectAnswered := true, pokePostOk := false, reply := none
    replyData := fun _ => zeroRD }

/-- Witness for C3 at concrete inputs: a valid-handle data message with no
ack request, a failing poke post, and a successful poke post. -/
theorem claim_C3_bufferDiscipline_witness :
    ((wmDdeData plainDataMsg).frees = 1 ∧ (wmDdeData plainDataMsg).unlocks = 1)
    ∧ ((postArrayTraceMessage zeroRD pokeFailEnv 1000).pokeFreedByClient = 1
      ∧ (postArrayTraceMessage zeroRD pokeFailEnv 1000).pokeDeliveredToPeer = false
      ∧ (postArrayTraceMessage zeroRD pokeFailEnv 1000).ret = -1)
    ∧ ((postArrayTraceMessage zeroRD successEnv 1000).pokeFreedByClient = 0
      ∧ (postArrayTraceMessage zeroRD successEnv 1000).pokeDeliveredToPeer = true) :=
  ⟨(claim_C3_bufferDiscipline plainDataMsg zeroRD successEnv 1000).1 rfl,
   (claim_C3_bufferDiscipline plainDataMsg zeroRD pokeFailEnv 1000).2.2.1 rfl,
   (claim_C3_bufferDiscipline plainDataMsg zeroRD successEnv 1000).2.2.2 rfl⟩

/-- The `WM_DDE_DATA` message flags of claim C5's scenario: the peer
requested acknowledgement and posting the acknowledgement fails. -/
def ackFailMsg : DataMsgEnv :=
  { formatText := true, ackReq := true, ackPostOk := false, release := true,
    handleValid := true }

/-- Counterexample to claim C5: on the ack-post-failure path the handler
does free the peer's data handle and return early, but it does NOT leave the
outstanding-request state unsatisfied — `GotData = 1` was already set before
the acknowledgement attempt, so the request is marked satisfied there. -/
theorem claim_C5_counterexample :
    ¬ ((wmDdeData ackFailMsg).frees = 1 ∧ (wmDdeData ackFailMsg).gotData = false) := by
  decide

/-- Claim C5 (amended): if the peer requested acknowledgement of receipt and
posting the acknowledgement back fails, the handler unlocks and frees the
peer's data handle exactly once and returns without posting the
acknowledgement; however, the outstanding-request flag `GotData` had already
been set before the acknowledgement attempt, so the request is still marked
satisfied on that path. -/
theorem claim_C5_amended :
    ∀ menv : DataMsgEnv,
      menv.ackReq = true → menv.ackPostOk = false → menv.handleValid = true →
      (wmDdeData menv).frees = 1 ∧ (wmDdeData menv).unlocks = 1
      ∧ (wmDdeData menv).ackPosted = false ∧ (wmDdeData menv).gotData = true := by
  intro menv h1 h2 h3
  unfold wmDdeData
  rw [if_pos (by simp [h1, h2]), if_pos h3]
  exact ⟨rfl, rfl, rfl, rfl⟩

/-- Witness for the amended C5 at the concrete ack-failure message. -/
theorem claim_C5_amended_witness :
    (wmDdeData ackFailMsg).frees = 1 ∧ (wmDdeData ackFailMsg).unlocks = 1
    ∧ (wmDdeData ackFailMsg).ackPosted = false ∧ (wmDdeData ackFailMsg).gotData = true :=
  claim_C5_amended ackFailMsg rfl rfl rfl

/-- Claim C9: for every ray count `n ≥ 0`, the record bytes serialized into
the cross-process poke buffer by `PostArrayTraceMessage` and the bytes
memcpy'd back into the caller's buffer by the `WM_DDE_DATA` handler are both
`(n + 1) * sizeof(DDERAYDATA)`: one header record plus `n` ray records. -/
theorem claim_C9_bufferSize :
    ∀ (nrays : Nat) (header : DDERAYDATA) (env : TraceEnv) (t : Nat),
      decodeNumRays header = nrays →
      (postArrayTraceMessage header env t).numbytes
          = ((nrays : Int) + 1) * (sizeofDDERAYDATA : Int)
      ∧ pokeNumBytes header = ((nrays : Int) + 1) * (sizeofDDERAYDATA : Int)
      ∧ ddeDataCopyBytes nrays = ((nrays : Int) + 1) * (sizeofDDERAYDATA : Int) := by
  intro nrays header env t h
  have hnum : (1 + decodeNumRays header) * (sizeofDDERAYDATA : Int)
      = ((nrays : Int) + 1) * (sizeofDDERAYDATA : Int) := by
    rw [h]; ring
  refine ⟨?_, ?_, ?_⟩
  · unfold postArrayTraceMessage
    split
    · exact hnum
    · split <;> exact hnum
  · unfold pokeNumBytes
    exact hnum
  · unfold ddeDataCopyBytes
    ring

/-- Witness for C9 at a concrete input: a header with `opd = 0`, `error = 3`
encodes 3 rays and both byte counts are `4 * 128 = 512`. -/
theorem claim_C9_bufferSize_witness :
    (postArrayTraceMessage { zeroRD with error := 3 } successEnv 1000).numbytes
        = ((3 : Int) + 1) * (sizeofDDERAYDATA : Int)
    ∧ pokeNumBytes { zeroRD with error := 3 } = ((3 : Int) + 1) * (sizeofDDERAYDATA : Int)
    ∧ ddeDataCopyBytes 3 = ((3 : Int) + 1) * (sizeofDDERAYDATA : Int) :=
  claim_C9_bufferSize 3 { zeroRD with error := 3 } successEnv 1000 (by decide)

lemma retvalAfter_mem :
    ∀ (calls : List (DDERAYDATA × TraceEnv × Nat)) (init : Int),
      (init = 0 ∨ init = -999 ∨ init = -998) →
      (retvalAfter init calls = 0 ∨ retvalAfter init calls = -999
        ∨ retvalAfter init calls = -998) := by
  intro calls
  induction calls with
  | nil => intro init h; exact h
  | cons c cs ih =>
    intro init h
    have hnext := arrayTraceRet_cases c.1 init c.2.1 c.2.2
    unfold retvalAfter at ih ⊢
    rw [List.foldl_cons]
    apply ih
    rcases hnext with hn | hn | hn <;> rw [hn] <;> tauto

/-- Claim C10 (implicit): the status `arrayTrace` returns is the
process-global `RETVAL`, initialised to `0` at load and written only on
failure paths (`-999` on connect/poke failure, `-998` on timeout), never
reset to `0`; a call whose round trip completes successfully returns
whatever `RETVAL` held at entry, so it returns `0` only if no earlier call
in the same process had failed, and across any sequence of calls starting
from the initial `0` the global stays in `{0, -999, -998}`. -/
theorem claim_C10_retvalStaleness :
    ∀ (header : DDERAYDATA) (retval0 : Int) (env : TraceEnv) (timeout : Nat),
      (arrayTraceRet header retval0 env timeout = retval0
        ∨ arrayTraceRet header retval0 env timeout = -999
        ∨ arrayTraceRet header retval0 env timeout = -998)
      ∧ (∀ r, env.connectAnswered = true → env.pokePostOk = true → env.reply = some r →
          100 * (r + 1) ≤ ddeTimeoutOf timeout →
          arrayTraceRet header retval0 env timeout = retval0)
      ∧ (arrayTraceRet header retval0 env timeout = 0 → retval0 = 0)
      ∧ (∀ calls, retvalAfter 0 calls = 0 ∨ retvalAfter 0 calls = -999
          ∨ retvalAfter 0 calls = -998) := by
  intro header retval0 env timeout
  refine ⟨arrayTraceRet_cases header retval0 env timeout,
    fun r => arrayTraceRet_success header retval0 env timeout r, fun h0 => ?_,
    fun calls => retvalAfter_mem calls 0 (Or.inl rfl)⟩
  rcases arrayTraceRet_cases header retval0 env timeout with h | h | h
  · rw [← h0, h]
  · rw [h] at h0; norm_num at h0
  · rw [h] at h0; norm_num at h0

/-- Witness for C10 at concrete inputs: a successful round trip entered with
the stale `RETVAL = -998` returns `-998`; entered with `RETVAL = 0` it
returns `0`; and the empty call sequence leaves the global at `0`. -/
theorem claim_C10_retvalStaleness_witness :
    arrayTraceRet zeroRD (-998) successEnv 0 = -998
    ∧ (arrayTraceRet zeroRD 0 successEnv 0 = 0 → (0 : Int) = 0)
    ∧ (retvalAfter 0 [] = 0 ∨ retvalAfter 0 [] = -999 ∨ retvalAfter 0 [] = -998) :=
  ⟨(claim_C10_retvalStaleness zeroRD (-998) successEnv 0).2.1 0 rfl rfl rfl
      (by norm_num [ddeTimeoutOf]),
   (claim_C10_retvalStaleness zeroRD 0 successEnv 0).2.2.1,
   (claim_C10_retvalStaleness zeroRD 0 successEnv 0).2.2.2 []⟩

section Wrappers

/-- Scatter loop of the wrappers: the first `cnt` entries of a caller-owned
array are overwritten, entries beyond `cnt` are untouched. -/
def overwrite {α : Type} (orig : List α) (cnt : Nat) (f : Nat → α) (d : α) : List α :=
  (List.range orig.length).map fun i => if i < cnt then f i else orig.getD i d

/-- Ray record `i + 1` of a traced buffer (the wrappers read `RD[i+1]`). -/
def rayAt (RD : List DDERAYDATA) (i : Nat) : DDERAYDATA := RD.getD (i + 1) zeroRD

/-- Record buffer built by `numpyGetTrace` (`arrayTraceClient.c:113-135`):
header `opd = 0` (GetTrace mode), `wave = mode`, `error = nrays`,
`vigcode = 0`, `want_opd = surf`, followed by one record per ray with the
field/pupil coordinates in `x`,`y`,`z`,`l`, the remaining fields zero from
`calloc`. -/
def buildGetTraceRD (nrays : Nat) (hx hy px py intensityIn : List Rat)
    (wave_num : List Int) (mode surf : Int) : List DDERAYDATA :=
  { zeroRD with
    opd := 0, wave := mode, error := (nrays : Int), vigcode := 0, want_opd := surf }
  :: ((List.range nrays).map fun i =>
    { zeroRD with
      x := hx.getD i 0, y := hy.getD i 0, z := px.getD i 0, l := py.getD i 0
      intensity := intensityIn.getD i 0, wave := wave_num.getD i 0 })

/-- Record buffer built by `numpyGetTraceDirect` (`arrayTraceClient.c:169-192`):
header `opd = 1` (GetTraceDirect mode), `vigcode = startsurf`,
`want_opd = lastsurf`, rays carrying start position and direction cosines. -/
def buildGetTraceDirectRD (nrays : Nat) (startpos startdir : List (Rat × Rat × Rat))
    (intensityIn : List Rat) (wave_num : List Int) (mode startsurf lastsurf : Int) :
    List DDERAYDATA :=
  { zeroRD with
    opd := 1, wave := mode, error := (nrays : Int), vigcode := startsurf
    want_opd := lastsurf }
  :: ((List.range nrays).map fun i =>
    { zeroRD with
      x := (startpos.getD i (0, 0, 0)).1, y := (startpos.getD i (0, 0, 0)).2.1
      z := (startpos.getD i (0, 0, 0)).2.2, l := (startdir.getD i (0, 0, 0)).1
      m := (startdir.getD i (0, 0, 0)).2.1, n := (startdir.getD i (0, 0, 0)).2.2
      intensity := intensityIn.getD i 0, wave := wave_num.getD i 0 })

/-- Record buffer built by `numpyOpticalPathDifference`
(`arrayTraceClient.c:230-260`): header `opd = 0`, `wave = 0`,
`error = nWave*nField*nPupil`, `vigcode = 0`, `want_opd = -1`, followed by
the triple loop over wavelength (outermost), field, pupil (innermost), with
`intensity = 1.0`, `want_opd = 1`, and `want_opd = -1` on the first pupil
sample of each wavelength/field combination (the OPD reference ray). -/
def buildOPDRD (nField : Nat) (hx hy : List Rat) (nPupil : Nat) (px py : List Rat)
    (nWave : Nat) (wave_num : List Int) : List DDERAYDATA :=
  { zeroRD with
    opd := 0, wave := 0, error := ((nWave * nField * nPupil : Nat) : Int)
    vigcode := 0, want_opd := -1 }
  :: ((List.range nWave).flatMap fun iW =>
    (List.range nField).flatMap fun iF =>
      (List.range nPupil).map fun iP =>
        { zeroRD with
          x := hx.getD iF 0, y := hy.getD iF 0, z := px.getD iP 0
          l := py.getD iP 0, intensity := 1, wave := wave_num.getD iW 0
          want_opd := if iP = 0 then -1 else 1 })

/-- Caller-visible result of `numpyGetTrace`/`numpyGetTraceDirect`: status
code and the six caller-owned output arrays. -/
structure NumpyOut where
  status : Int
  pos : List (Rat × Rat × Rat)
  dir : List (Rat × Rat × Rat)
  normal : List (Rat × Rat × Rat)
  intensity : List Rat
  error : List Int
  vigcode : List Int
deriving DecidableEq, Repr

/-- Caller-visible result of `numpyOpticalPathDifference`. -/
structure NumpyOPDOut where
  status : Int
  pos : List (Rat × Rat × Rat)
  dir : List (Rat × Rat × Rat)
  opd : List Rat
  intensity : List Rat
  error : List Int
  vigcode : List Int
deriving DecidableEq, Repr

/-- `numpyGetTrace` (`arrayTraceClient.c:107-158`): build the record buffer,
run `arrayTrace`, and only when it returned `0` scatter the traced records
into the caller's output arrays; then return `RETVAL`. -/
def numpyGetTrace (nrays : Nat) (hx hy px py intensityIn : List Rat)
    (wave_num : List Int) (mode surf : Int) (errIn vigIn : List Int)
    (posIn dirIn normalIn : List (Rat × Rat × Rat)) (retval0 : Int) (env : TraceEnv)
    (timeout : Nat) : NumpyOut :=
  let RD := buildGetTraceRD nrays hx hy px py intensityIn wave_num mode surf
  let st := arrayTraceRet (RD.getD 0 zeroRD) retval0 env timeout
  let RD2 := arrayTraceRD RD env timeout
  if st = 0 then
    { status := st
      pos := overwrite posIn nrays
        (fun i => ((rayAt RD2 i).x, (rayAt RD2 i).y, (rayAt RD2 i).z)) (0, 0, 0)
      dir := overwrite dirIn nrays
        (fun i => ((rayAt RD2 i).l, (rayAt RD2 i).m, (rayAt RD2 i).n)) (0, 0, 0)
      normal := overwrite normalIn nrays
        (fun i => ((rayAt RD2 i).Exr, (rayAt RD2 i).Eyr, (rayAt RD2 i).Ezr)) (0, 0, 0)
      intensity := overwrite intensityIn nrays (fun i => (rayAt RD2 i).intensity) 0
      error := overwrite errIn nrays (fun i => (rayAt RD2 i).error) 0
      vigcode := overwrite vigIn nrays (fun i => (rayAt RD2 i).vigcode) 0 }
  else
    { status := st, pos := posIn, dir := dirIn, normal := normalIn
      intensity := intensityIn, error := errIn, vigcode := vigIn }

/-- `numpyGetTraceDirect` (`arrayTraceClient.c:163-215`). -/
def numpyGetTraceDirect (nrays : Nat) (startpos startdir : List (Rat × Rat × Rat))
    (intensityIn : List Rat) (wave_num : List Int) (mode startsurf lastsurf : Int)
    (errIn vigIn : List Int) (posIn dirIn normalIn : List (Rat × Rat × Rat))
    (retval0 : Int) (env : TraceEnv) (timeout : Nat) : NumpyOut :=
  let RD := buildGetTraceDirectRD nrays startpos startdir intensityIn wave_num mode
    startsurf lastsurf
  let st := arrayTraceRet (RD.getD 0 zeroRD) retval0 env timeout
  let RD2 := arrayTraceRD RD env timeout
  if st = 0 then
    { status := st
      pos := overwrite posIn nrays
        (fun i => ((rayAt RD2 i).x, (rayAt RD2 i).y, (rayAt RD2 i).z)) (0, 0, 0)
      dir := overwrite dirIn nrays
        (fun i => ((rayAt RD2 i).l, (rayAt RD2 i).m, (rayAt RD2 i).n)) (0, 0, 0)
      normal := overwrite normalIn nrays
        (fun i => ((rayAt RD2 i).Exr, (rayAt RD2 i).Eyr, (rayAt RD2 i).Ezr)) (0, 0, 0)
      intensity := overwrite intensityIn nrays (fun i => (rayAt RD2 i).intensity) 0
      error := overwrite errIn nrays (fun i => (rayAt RD2 i).error) 0
      vigcode := overwrite vigIn nrays (fun i => (rayAt RD2 i).vigcode) 0 }
  else
    { status := st, pos := posIn, dir := dirIn, normal := normalIn
      intensity := intensityIn, error := errIn, vigcode := vigIn }

/-- `numpyOpticalPathDifference` (`arrayTraceClient.c:222-282`). -/
def numpyOpticalPathDifference (nField : Nat) (hx hy : List Rat) (nPupil : Nat)
    (px py : List Rat) (nWave : Nat) (wave_num : List Int) (errIn vigIn : List Int)
    (opdIn : List Rat) (posIn dirIn : List (Rat × Rat × Rat)) (intensityIn : List Rat)
    (retval0 : Int) (env : TraceEnv) (timeout : Nat) : NumpyOPDOut :=
  let nrays := nWave * nField * nPupil
  let RD := buildOPDRD nField hx hy nPupil px py nWave wave_num
  let st := arrayTraceRet (RD.getD 0 zeroRD) retval0 env timeout
  let RD2 := arrayTraceRD RD env timeout
  if st = 0 then
    { status := st
      pos := overwrite posIn nrays
        (fun i => ((rayAt RD2 i).x, (rayAt RD2 i).y, (rayAt RD2 i).z)) (0, 0, 0)
      dir := overwrite dirIn nrays
        (fun i => ((rayAt RD2 i).l, (rayAt RD2 i).m, (rayAt RD2 i).n)) (0, 0, 0)
      opd := overwrite opdIn nrays (fun i => (rayAt RD2 i).opd) 0
      intensity := overwrite intensityIn nrays (fun i => (rayAt RD2 i).intensity) 0
      error := overwrite errIn nrays (fun i => (rayAt RD2 i).error) 0
      vigcode := overwrite vigIn nrays (fun i => (rayAt RD2 i).vigcode) 0 }
  else
    { status := st, pos := posIn, dir := dirIn, opd := opdIn
      intensity := intensityIn, error := errIn, vigcode := vigIn }

end Wrappers

lemma getD_map_range {α : Type} (f : Nat → α) (n i : Nat) (d : α) (h : i < n) :
    ((List.range n).map f).getD i d = f i := by
  rw [List.getD_eq_getElem?_getD, List.getElem?_map, List.getElem?_range h]
  rfl

lemma length_flatMap_range' {α : Type} (g : Nat → List α) (L : Nat)
    (hg : ∀ k, (g k).length = L) :
    ∀ (n s : Nat), ((List.range' s n).flatMap g).length = n * L := by
  intro n
  induction n with
  | zero => intro s; simp
  | succ m ih =>
    intro s
    rw [List.range'_succ, List.flatMap_cons, List.length_append, hg, ih]
    ring

lemma getD_flatMap_range' {α : Type} (g : Nat → List α) (L : Nat)
    (hg : ∀ k, (g k).length = L) (d : α) :
    ∀ (n s i j : Nat), i < n → j < L →
      ((List.range' s n).flatMap g).getD (i * L + j) d = (g (s + i)).getD j d := by
  intro n
  induction n with
  | zero => intro s i j hi hj; omega
  | succ m ih =>
    intro s i j hi hj
    rw [List.range'_succ, List.flatMap_cons]
    cases i with
    | zero =>
      rw [Nat.zero_mul, Nat.zero_add, List.getD_append _ _ _ _ (by rw [hg]; exact hj),
        Nat.add_zero]
    | succ i2 =>
      rw [List.getD_append_right _ _ _ _ (by rw [hg, Nat.succ_mul]; omega)]
      have hidx : (i2 + 1) * L + j - (g s).length = i2 * L + j := by
        rw [hg, Nat.succ_mul]; omega
      rw [hidx, ih (s + 1) i2 j (by omega) hj]
      have harg : s + 1 + i2 = s + (i2 + 1) := by omega
      rw [harg]

lemma length_flatMap_range {α : Type} (g : Nat → List α) (L : Nat)
    (hg : ∀ k, (g k).length = L) (n : Nat) :
    ((List.range n).flatMap g).length = n * L := by
  rw [List.range_eq_range']
  exact length_flatMap_range' g L hg n 0

lemma getD_flatMap_range {α : Type} (g : Nat → List α) (L : Nat)
    (hg : ∀ k, (g k).length = L) (d : α) (n i j : Nat) (hi : i < n) (hj : j < L) :
    ((List.range n).flatMap g).getD (i * L + j) d = (g i).getD j d := by
  rw [List.range_eq_range']
  have := getD_flatMap_range' g L hg d n 0 i j hi hj
  rwa [Nat.zero_add] at this

lemma flatMap_flatMap_map_getD {α : Type} (f : Nat → Nat → Nat → α) (d : α)
    (nW nF nP iW iF iP : Nat) (hW : iW < nW) (hF : iF < nF) (hP : iP < nP) :
    ((List.range nW).flatMap fun a =>
        (List.range nF).flatMap fun b =>
          (List.range nP).map fun c => f a b c).getD ((iW * nF + iF) * nP + iP) d
      = f iW iF iP := by
  have hglen : ∀ a, ((List.range nF).flatMap fun b =>
      (List.range nP).map fun c => f a b c).length = nF * nP := by
    intro a
    apply length_flatMap_range
    intro k
    rw [List.length_map, List.length_range]
  have hinlen : ∀ (a b : Nat), ((List.range nP).map fun c => f a b c).length = nP := by
    intro a b
    rw [List.length_map, List.length_range]
  have hj : iF * nP + iP < nF * nP :=
    calc iF * nP + iP < iF * nP + nP := by omega
    _ = (iF + 1) * nP := by ring
    _ ≤ nF * nP := Nat.mul_le_mul_right _ (by omega)
  have hidx : (iW * nF + iF) * nP + iP = iW * (nF * nP) + (iF * nP + iP) := by ring
  rw [hidx, getD_flatMap_range _ (nF * nP) hglen d nW iW _ hW hj,
    getD_flatMap_range _ nP (hinlen iW) d nF iF iP hF hP]
  exact getD_map_range _ _ _ _ hP

/-- Claim C8: `numpyOpticalPathDifference` builds the record sequence in
wavelength-major, then field, then pupil order: the ray for
`(iWave, iField, iPupil)` occupies record index
`1 + (iWave*nField + iField)*nPupil + iPupil` and carries
`x = hx[iField]`, `y = hy[iField]`, `z = px[iPupil]`, `l = py[iPupil]`,
`wave = wave_num[iWave]`, `intensity = 1.0`, and `want_opd = -1` exactly
when `iPupil = 0` (the OPD reference ray) and `1` otherwise; the header
(record 0) carries `error = nWave*nField*nPupil`, `opd = 0`,
`want_opd = -1`. -/
theorem claim_C8_opdLayout :
    ∀ (nField : Nat) (hx hy : List Rat) (nPupil : Nat) (px py : List Rat) (nWave : Nat)
      (wave_num : List Int) (iW iF iP : Nat),
      iW < nWave → iF < nField → iP < nPupil →
      ((buildOPDRD nField hx hy nPupil px py nWave wave_num).getD 0 zeroRD).error
          = ((nWave * nField * nPupil : Nat) : Int)
      ∧ ((buildOPDRD nField hx hy nPupil px py nWave wave_num).getD 0 zeroRD).opd = 0
      ∧ ((buildOPDRD nField hx hy nPupil px py nWave wave_num).getD 0 zeroRD).want_opd = -1
      ∧ (buildOPDRD nField hx hy nPupil px py nWave wave_num).getD
            (1 + (iW * nField + iF) * nPupil + iP) zeroRD
          = { zeroRD with
              x := hx.getD iF 0, y := hy.getD iF 0, z := px.getD iP 0
              l := py.getD iP 0, intensity := 1, wave := wave_num.getD iW 0
              want_opd := if iP = 0 then -1 else 1 } := by
  intro nField hx hy nPupil px py nWave wave_num iW iF iP hW hF hP
  refine ⟨rfl, rfl, rfl, ?_⟩
  have h1 : 1 + (iW * nField + iF) * nPupil + iP = ((iW * nField + iF) * nPupil + iP) + 1 := by
    omega
  rw [buildOPDRD, h1, List.getD_cons_succ]
  exact flatMap_flatMap_map_getD
    (fun a b c =>
      { zeroRD with
        x := hx.getD b 0, y := hy.getD b 0, z := px.getD c 0
        l := py.getD c 0, intensity := 1, wave := wave_num.getD a 0
        want_opd := if c = 0 then -1 else 1 })
    zeroRD nWave nField nPupil iW iF iP hW hF hP

/-- Witness for C8 at a concrete input: `nWave = nField = nPupil = 2` with
ray `(iW, iF, iP) = (1, 0, 1)` at record index `1 + (1*2 + 0)*2 + 1 = 6`. -/
theorem claim_C8_opdLayout_witness :
    ((buildOPDRD 2 [1, 2] [3, 4] 2 [5, 6] [7, 8] 2 [9, 10]).getD 0 zeroRD).error
        = ((2 * 2 * 2 : Nat) : Int)
    ∧ ((buildOPDRD 2 [1, 2] [3, 4] 2 [5, 6] [7, 8] 2 [9, 10]).getD 0 zeroRD).opd = 0
    ∧ ((buildOPDRD 2 [1, 2] [3, 4] 2 [5, 6] [7, 8] 2 [9, 10]).getD 0 zeroRD).want_opd = -1
    ∧ (buildOPDRD 2 [1, 2] [3, 4] 2 [5, 6] [7, 8] 2 [9, 10]).getD
          (1 + (1 * 2 + 0) * 2 + 1) zeroRD
        = { zeroRD with
            x := ([1, 2] : List Rat).getD 0 0, y := ([3, 4] : List Rat).getD 0 0
            z := ([5, 6] : List Rat).getD 1 0, l := ([7, 8] : List Rat).getD 1 0
            intensity := 1, wave := ([9, 10] : List Int).getD 1 0
            want_opd := if (1 : Nat) = 0 then -1 else 1 } :=
  claim_C8_opdLayout 2 [1, 2] [3, 4] 2 [5, 6] [7, 8] 2 [9, 10] 1 0 1
    (by norm_num) (by norm_num) (by norm_num)

/-- Claim C6: for each numpy wrapper, whenever the inner `arrayTrace` call
reports a nonzero status the wrapper returns without writing any element of
the caller's output arrays (`pos`, `dir`, `normal` or `opd`, `intensity`,
`error`, `vigcode`); only the returned status code signals the failure. -/
theorem claim_C6_failureWritesNoOutput :
    ∀ (nrays nField nPupil nWave : Nat) (hx hy px py intensityIn opdIn : List Rat)
      (wave_num errIn vigIn : List Int) (mode surf startsurf lastsurf : Int)
      (posIn dirIn normalIn startpos startdir : List (Rat × Rat × Rat))
      (retval0 : Int) (env : TraceEnv) (timeout : Nat),
      (∀ out : NumpyOut,
        out = numpyGetTrace nrays hx hy px py intensityIn wave_num mode surf errIn vigIn
          posIn dirIn normalIn retval0 env timeout →
        out.status ≠ 0 →
        out.pos = posIn ∧ out.dir = dirIn ∧ out.normal = normalIn
          ∧ out.intensity = intensityIn ∧ out.error = errIn ∧ out.vigcode = vigIn)
      ∧ (∀ out : NumpyOut,
        out = numpyGetTraceDirect nrays startpos startdir intensityIn wave_num mode
          startsurf lastsurf errIn vigIn posIn dirIn normalIn retval0 env timeout →
        out.status ≠ 0 →
        out.pos = posIn ∧ out.dir = dirIn ∧ out.normal = normalIn
          ∧ out.intensity = intensityIn ∧ out.error = errIn ∧ out.vigcode = vigIn)
      ∧ (∀ out : NumpyOPDOut,
        out = numpyOpticalPathDifference nField hx hy nPupil px py nWave wave_num errIn
          vigIn opdIn posIn dirIn intensityIn retval0 env timeout →
        out.status ≠ 0 →
        out.pos = posIn ∧ out.dir = dirIn ∧ out.opd = opdIn
          ∧ out.intensity = intensityIn ∧ out.error = errIn ∧ out.vigcode = vigIn) := by
  intro nrays nField nPupil nWave hx hy px py intensityIn opdIn wave_num errIn vigIn
    mode surf startsurf lastsurf posIn dirIn normalIn startpos startdir retval0 env timeout
  refine ⟨fun out hout hst => ?_, fun out hout hst => ?_, fun out hout hst => ?_⟩
  · subst hout
    by_cases h0 : arrayTraceRet
        ((buildGetTraceRD nrays hx hy px py intensityIn wave_num mode surf).getD 0 zeroRD)
        retval0 env timeout = 0
    · refine absurd ?_ hst
      dsimp only [numpyGetTrace]
      rw [if_pos h0]
      exact h0
    · dsimp only [numpyGetTrace]
      rw [if_neg h0]
      exact ⟨rfl, rfl, rfl, rfl, rfl, rfl⟩
  · subst hout
    by_cases h0 : arrayTraceRet
        ((buildGetTraceDirectRD nrays startpos startdir intensityIn wave_num mode startsurf
          lastsurf).getD 0 zeroRD) retval0 env timeout = 0
    · refine absurd ?_ hst
      dsimp only [numpyGetTraceDirect]
      rw [if_pos h0]
      exact h0
    · dsimp only [numpyGetTraceDirect]
      rw [if_neg h0]
      exact ⟨rfl, rfl, rfl, rfl, rfl, rfl⟩
  · subst hout
    by_cases h0 : arrayTraceRet
        ((buildOPDRD nField hx hy nPupil px py nWave wave_num).getD 0 zeroRD)
        retval0 env timeout = 0
    · refine absurd ?_ hst
      dsimp only [numpyOpticalPathDifference]
      rw [if_pos h0]
      exact h0
    · dsimp only [numpyOpticalPathDifference]
      rw [if_neg h0]
      exact ⟨rfl, rfl, rfl, rfl, rfl, rfl⟩

/-- A peer environment where nothing answers the connect broadcast. -/
def connectFailEnv : TraceEnv :=
  { connectAnswered := false, pokePostOk := true, reply := none
    replyData := fun _ => zeroRD }

/-- Witness for C6 at concrete inputs: with no window answering the connect
broadcast each wrapper reports `-999` and every output array equals the
caller's input array. -/
theorem claim_C6_failureWritesNoOutput_witness :
    ((numpyGetTrace 1 [0] [0] [0] [0] [1] [1] 0 (-1) [0] [0] [(0, 0, 0)] [(0, 0, 0)]
        [(0, 0, 0)] 0 connectFailEnv 0).pos = [((0 : Rat), (0 : Rat), (0 : Rat))]
      ∧ (numpyGetTrace 1 [0] [0] [0] [0] [1] [1] 0 (-1) [0] [0] [(0, 0, 0)] [(0, 0, 0)]
        [(0, 0, 0)] 0 connectFailEnv 0).error = [(0 : Int)])
    ∧ ((numpyGetTraceDirect 1 [(0, 0, 0)] [(0, 0, 1)] [1] [1] 0 0 (-1) [0] [0] [(0, 0, 0)]
        [(0, 0, 0)] [(0, 0, 0)] 0 connectFailEnv 0).pos = [((0 : Rat), (0 : Rat), (0 : Rat))])
    ∧ ((numpyOpticalPathDifference 1 [0] [0] 1 [0] [0] 1 [1] [0] [0] [0] [(0, 0, 0)]
        [(0, 0, 0)] [1] 0 connectFailEnv 0).opd = [(0 : Rat)]) := by
  have h := claim_C6_failureWritesNoOutput 1 1 1 1 [0] [0] [0] [0] [1] [0] [1] [0] [0]
    0 (-1) 0 (-1) [(0, 0, 0)] [(0, 0, 0)] [(0, 0, 0)] [(0, 0, 0)] [(0, 0, 1)]
    0 connectFailEnv 0
  refine ⟨⟨?_, ?_⟩, ?_, ?_⟩
  · exact (h.1 _ rfl (by decide)).1
  · exact (h.1 _ rfl (by decide)).2.2.2.2.1
  · exact (h.2.1 _ rfl (by decide)).1
  · exact (h.2.2 _ rfl (by decide)).2.2.1
